import Mathlib

/-!
Verification development for the finance-terminal application (src/app.py).
Python floats are modelled as exact rationals; dictionary access with
defaults (`info.get(key, default)`) is modelled with `Option` fields and
`Option.getD`; Python division, which raises `ZeroDivisionError` on a zero
denominator, is modelled by explicit zero tests in evaluation order, each
failing branch mapped to an explicit outcome constructor.
-/

namespace FinanceTerminal

/-- Round half to even at integer precision, the rounding Python `round`
applies to an exactly representable value. -/
def rhe (x : ℚ) : ℤ :=
  let n := ⌊x⌋
  let frac := x - n
  if frac < 1/2 then n
  else if 1/2 < frac then n + 1
  else if n % 2 = 0 then n else n + 1

/-- Python `round(x, 2)`: round half to even at two decimal places. -/
def round2 (x : ℚ) : ℚ := (rhe (x * 100) : ℚ) / 100

/-- The subset of the yfinance `info` dictionary the application reads.
A `none` field models an absent key, so `info.get(k, d)` is `(field).getD d`.
The source key `currentRatio` is modelled by the field `currentRatioVal`. -/
structure Info where
  currentPrice : Option ℚ := none
  regularMarketChangePercent : Option ℚ := none
  marketCap : Option ℚ := none
  enterpriseValue : Option ℚ := none
  netIncomeToCommon : Option ℚ := none
  ebitda : Option ℚ := none
  trailingPE : Option ℚ := none
  forwardPE : Option ℚ := none
  priceToSalesTrailing12Months : Option ℚ := none
  profitMargins : Option ℚ := none
  currentRatioVal : Option ℚ := none
  debtToEquity : Option ℚ := none
  freeCashflow : Option ℚ := none
  sharesOutstanding : Option ℚ := none
deriving DecidableEq

/-- The statements dict built in fetch_terminal_bundle: each DataFrame is
modelled as an association list from row label to the first-column value
(`df.loc[row][0]`). -/
structure Statements where
  income : List (String × ℚ) := []
  balance : List (String × ℚ) := []
  cashflow : List (String × ℚ) := []
  quarterly_income : List (String × ℚ) := []
deriving DecidableEq

/-- The bundle returned by fetch_terminal_bundle on success. -/
structure Bundle where
  info : Info
  hist : List ℚ
  statements : Statements
deriving DecidableEq

/-- A value in the dict returned by compute_ratios: a number, the string
"N/A", or the f-string formatted percent used for Profit Margin (the carried
rational is the rounded percent; the trailing percent sign is presentation). -/
inductive RVal where
  | num : ℚ → RVal
  | na : RVal
  | pctStr : ℚ → RVal
deriving DecidableEq

/-- `info.get(key, "N/A")`: the raw number when the key is present, else "N/A". -/
def RVal.ofOpt : Option ℚ → RVal
  | some q => RVal.num q
  | none => RVal.na

/-- `get_val(df, row)` from compute_ratios:
`df.loc[row][0] if row in df.index else 0`. -/
def get_val (df : List (String × ℚ)) (row : String) : ℚ :=
  (df.lookup row).getD 0

/-- QuantEngine.compute_ratios, translated literally from src/app.py lines
54-86. The bound `is_stmt = statements['income']` in the source is unused.
With well-typed inputs no statement of the body can raise, so the broad
`except: return None` branch is unreachable and the embedding is total. -/
def compute_ratios (info : Info) (stmts : Statements) :
    List (String × List (String × RVal)) :=
  let bs := stmts.balance
  let equity := get_val bs "Stockholders Equity"
  let assets := get_val bs "Total Assets"
  let net_income := (info.netIncomeToCommon).getD 0
  let ebitda := (info.ebitda).getD 0
  let ev := (info.enterpriseValue).getD 0
  [("Valuation",
    [("P/E", RVal.ofOpt info.trailingPE),
     ("Forward P/E", RVal.ofOpt info.forwardPE),
     ("EV/EBITDA", if ebitda ≠ 0 then RVal.num (round2 (ev / ebitda)) else RVal.na),
     ("P/S", RVal.ofOpt info.priceToSalesTrailing12Months)]),
   ("Profitability",
    [("ROE (%)", if equity ≠ 0 then RVal.num (round2 (net_income / equity * 100)) else RVal.na),
     ("ROA (%)", if assets ≠ 0 then RVal.num (round2 (net_income / assets * 100)) else RVal.na),
     ("Profit Margin", RVal.pctStr (round2 ((info.profitMargins).getD 0 * 100)))]),
   ("Solvency",
    [("Current Ratio", RVal.ofOpt info.currentRatioVal),
     ("Debt/Equity", RVal.ofOpt info.debtToEquity)])]

/-- Look up one ratio value by category and name in a compute_ratios result. -/
def ratioLookup (r : List (String × List (String × RVal))) (cat nm : String) :
    Option RVal :=
  (r.lookup cat).bind (fun m => m.lookup nm)

/-- All ratio names appearing in a compute_ratios result, in order. -/
def allRatioNames (r : List (String × List (String × RVal))) : List String :=
  (r.map (fun p => p.2.map Prod.fst)).flatten

/-- Outcome of the DCF tab of main (src/app.py lines 159-170):
either the warning shown when fcf is not positive, a Python
ZeroDivisionError, or the displayed metric (fair_price, upside). -/
inductive DcfOutcome where
  | warning : DcfOutcome
  | divByZero : DcfOutcome
  | metric : ℚ → ℚ → DcfOutcome
deriving DecidableEq

/-- The DCF tab of main, translated from src/app.py lines 112 and 159-170.
`price` is `info.get('currentPrice', 0)` from line 112; `fcf` is
`info.get('freeCashflow', 0)`; `shares` defaults to 1 when absent.
Each Python division is guarded by an explicit zero test in the source's
evaluation order; a zero denominator yields `divByZero`. -/
def dcf_tab (info : Info) (t_growth wacc : ℚ) : DcfOutcome :=
  let price := (info.currentPrice).getD 0
  let fcf := (info.freeCashflow).getD 0
  if 0 < fcf then
    let shares := (info.sharesOutstanding).getD 1
    if wacc - t_growth = 0 then DcfOutcome.divByZero
    else
      let term_val := fcf * (1 + t_growth) / (wacc - t_growth)
      if (1 + wacc)^5 = 0 then DcfOutcome.divByZero
      else
        let intrinsic := (fcf + term_val) / (1 + wacc)^5
        if shares = 0 then DcfOutcome.divByZero
        else
          let fair_price := intrinsic / shares
          if price = 0 then DcfOutcome.divByZero
          else DcfOutcome.metric fair_price ((fair_price / price - 1) * 100)
  else DcfOutcome.warning

/-- Whether the DCF tab displayed a valuation metric. -/
def isMetric : DcfOutcome → Bool
  | DcfOutcome.metric _ _ => true
  | _ => false

/-- Whether the DCF tab displayed a valuation metric with a negative
fair value per share. -/
def producesNegValuation : DcfOutcome → Bool
  | DcfOutcome.metric f _ => decide (f < 0)
  | _ => false

/-- What the upstream calls inside fetch_terminal_bundle produced:
a bundle (whose history may be empty), or a raised exception with message. -/
inductive LoadResult where
  | success : Bundle → LoadResult
  | failure : String → LoadResult
deriving DecidableEq

/-- The body of fetch_terminal_bundle (src/app.py lines 33-51): an empty
history returns None; an exception is caught, its message shown via
st.error (a UI side effect, not part of the return value), and None is
returned. Only a nonempty-history bundle is returned as a value. -/
def fetch_body : LoadResult → Option Bundle
  | LoadResult.success b => if b.hist.isEmpty then none else some b
  | LoadResult.failure _ => none

/-- The st.cache_data store: key to the cached return value of
fetch_terminal_bundle (which can be `none`). An entry present models a hit
within ttl; absence models a miss or expiry. -/
structure CacheState where
  entries : List (String × Option Bundle)
deriving DecidableEq

/-- One call through the st.cache_data decorator on fetch_terminal_bundle:
on a hit the stored return value is served and the body is not run; on a
miss the body runs once and its return value — whatever it is, including
None — is stored. The Bool reports whether the body ran. -/
def cached_fetch (c : CacheState) (key : String) (load : LoadResult) :
    Option Bundle × Bool × CacheState :=
  match c.entries.lookup key with
  | some v => (v, false, c)
  | none =>
    let r := fetch_body load
    (r, true, ⟨(key, r) :: c.entries⟩)

/-- Scale unit of a normalized series. -/
inductive ScaleUnit where
  | units : ScaleUnit
  | millions : ScaleUnit
  | billions : ScaleUnit
deriving DecidableEq

/-- Divisor attached to a scale unit. -/
def divisorOf : ScaleUnit → ℚ
  | ScaleUnit.billions => 10^9
  | ScaleUnit.millions => 10^6
  | ScaleUnit.units => 1

/-- Maximum absolute value over a series (0 for the empty series). -/
def maxAbs (xs : List ℚ) : ℚ := xs.foldl (fun a v => max a |v|) 0

/-- Unit selection from the maximum absolute magnitude. -/
def selectUnit (m : ℚ) : ScaleUnit :=
  if 10^9 ≤ m then ScaleUnit.billions
  else if 10^6 ≤ m then ScaleUnit.millions
  else ScaleUnit.units

/-- Modelled from the spec: the repository has no FactNormalizer — src/app.py
displays statements raw — so the scaling step of the normalize contract
(spec section 4.3) is modelled from the spec's words: compute max_abs over
the series, select the unit (Billions if max_abs is at least 1e9, Millions if
at least 1e6, else Units), and store each value divided by the unit's divisor
rounded to 2 decimal places, uniformly over the series. -/
def scaleSeries (xs : List ℚ) : ScaleUnit × List ℚ :=
  let u := selectUnit (maxAbs xs)
  (u, xs.map (fun v => round2 (v / divisorOf u)))

/-- The spec's DCF worked example, as yfinance info fields: base cash flow
1e11, 15e9 shares outstanding, and a current price of 100 so the upside
division is defined. -/
def exInfo1 : Info :=
  { freeCashflow := some (10^11)
    sharesOutstanding := some (15 * 10^9)
    currentPrice := some 100 }

/-- A fully populated info dict for ratio computations. -/
def exInfo3 : Info :=
  { enterpriseValue := some (10^10)
    ebitda := some (2 * 10^9)
    netIncomeToCommon := some (5 * 10^8)
    trailingPE := some 20
    forwardPE := some 18
    priceToSalesTrailing12Months := some 5
    profitMargins := some (1/10)
    currentRatioVal := some 1
    debtToEquity := some (1/2) }

/-- A balance sheet with equity and assets rows present. -/
def exStmts1 : Statements :=
  { balance := [("Stockholders Equity", 2 * 10^9), ("Total Assets", 4 * 10^9)] }

/-- Positive free cash flow and a price, but no sharesOutstanding key. -/
def exInfo4 : Info :=
  { freeCashflow := some (10^11)
    currentPrice := some 50 }

/-- Positive free cash flow, a price, and sharesOutstanding present but 0. -/
def exInfo4z : Info :=
  { freeCashflow := some (10^11)
    sharesOutstanding := some 0
    currentPrice := some 50 }

/-- Positive free cash flow but no currentPrice key, so the price defaults
to 0 in main. -/
def exInfo9 : Info :=
  { freeCashflow := some (10^11)
    sharesOutstanding := some (15 * 10^9) }

/-- An info dict with every key absent. -/
def exInfoNone : Info := {}

/-- A small balance sheet for the missing-net-income witness. -/
def exStmts10 : Statements :=
  { balance := [("Stockholders Equity", 2), ("Total Assets", 4)] }

/-- A bundle whose price history is empty. -/
def emptyHistBundle : Bundle := ⟨{}, [], {}⟩

/-- A bundle with a nonempty price history. -/
def fullBundle : Bundle := ⟨{}, [1], {}⟩

/-- A one-entry cache already holding a successful bundle for AAPL. -/
def hitCache : CacheState := ⟨[("AAPL", some fullBundle)]⟩

/- Helper lemmas shared across the claim theorems. -/

/-- Evaluation of rhe when the fractional part is below one half. -/
theorem rhe_eq_low (x : ℚ) (n : ℤ) (hfl : ⌊x⌋ = n) (hlt : x - n < 1/2) : rhe x = n := by
  unfold rhe
  rw [hfl, if_pos hlt]

/-- Evaluation of round2 when the second decimal does not round up. -/
theorem round2_eq_low (x : ℚ) (n : ℤ) (hfl : ⌊x * 100⌋ = n) (hlt : x * 100 - n < 1/2) :
    round2 x = n / 100 := by
  rw [round2, rhe_eq_low (x * 100) n hfl hlt]

/-- The DCF tab on the fully defined path: positive cash flow, shares and
price present and nonzero, nonzero rate spread. -/
theorem dcf_tab_eval_metric (info : Info) (t w b s p : ℚ)
    (hfc : info.freeCashflow = some b) (hb : 0 < b)
    (hs : info.sharesOutstanding = some s) (hsne : s ≠ 0)
    (hp : info.currentPrice = some p) (hpne : p ≠ 0)
    (hwt : w - t ≠ 0) (hw1 : (1 + w)^5 ≠ 0) :
    dcf_tab info t w = DcfOutcome.metric
      ((b + b * (1 + t) / (w - t)) / (1 + w)^5 / s)
      (((b + b * (1 + t) / (w - t)) / (1 + w)^5 / s / p - 1) * 100) := by
  simp only [dcf_tab, hfc, hs, hp, Option.getD_some]
  rw [if_pos hb, if_neg hwt, if_neg hw1, if_neg hsne, if_neg hpne]

/-- The DCF tab when the growth and discount rates coincide: the first
division raises, independent of shares and price. -/
theorem dcf_tab_eval_spread_zero (info : Info) (t w : ℚ)
    (hfc : 0 < (info.freeCashflow).getD 0) (h : w - t = 0) :
    dcf_tab info t w = DcfOutcome.divByZero := by
  simp only [dcf_tab]
  rw [if_pos hfc, if_pos h]

/-- The DCF tab when the cash-flow base is not positive: the warning branch. -/
theorem dcf_tab_eval_warning (info : Info) (t w : ℚ)
    (hfc : (info.freeCashflow).getD 0 ≤ 0) :
    dcf_tab info t w = DcfOutcome.warning := by
  simp only [dcf_tab]
  rw [if_neg (not_lt.mpr hfc)]

/-- The DCF tab when sharesOutstanding is absent: the default 1 is used and
a fair value equal to the whole intrinsic value is displayed. -/
theorem dcf_tab_eval_no_shares (info : Info) (t w b p : ℚ)
    (hfc : info.freeCashflow = some b) (hb : 0 < b)
    (hs : info.sharesOutstanding = none)
    (hp : info.currentPrice = some p) (hpne : p ≠ 0)
    (hwt : w - t ≠ 0) (hw1 : (1 + w)^5 ≠ 0) :
    dcf_tab info t w = DcfOutcome.metric
      ((b + b * (1 + t) / (w - t)) / (1 + w)^5)
      (((b + b * (1 + t) / (w - t)) / (1 + w)^5 / p - 1) * 100) := by
  simp only [dcf_tab, hfc, hs, hp, Option.getD_some, Option.getD_none]
  rw [if_pos hb, if_neg hwt, if_neg hw1, if_neg (one_ne_zero (α := ℚ)), if_neg hpne, div_one]

/-- The DCF tab when sharesOutstanding is present but zero: the per-share
division raises. -/
theorem dcf_tab_eval_zero_shares (info : Info) (t w b : ℚ)
    (hfc : info.freeCashflow = some b) (hb : 0 < b)
    (hs : info.sharesOutstanding = some 0)
    (hwt : w - t ≠ 0) (hw1 : (1 + w)^5 ≠ 0) :
    dcf_tab info t w = DcfOutcome.divByZero := by
  simp only [dcf_tab, hfc, hs, Option.getD_some]
  rw [if_pos hb, if_neg hwt, if_neg hw1, if_pos trivial]

/-- Claim C1, amended: for every valuation input with discount rate strictly
above growth rate, positive cash-flow base, positive shares outstanding and a
nonzero current price supplied, the DCF tab displays
fair value per share = (base + base * (1 + growth) / (discount - growth))
/ (1 + discount)^5 / shares (terminal value, intrinsic value over the fixed
5 projection years, and per-share division exactly as the spec formulas) and
upside = (fair / price - 1) * 100; at the spec worked example
(base 1e11, growth 0.025, discount 0.085, shares 15e9) the fair value per
share rounds to 80.17, not the spec text's 80.90. -/
theorem claim_C1 :
    (∀ (info : Info) (t w b s p : ℚ),
      info.freeCashflow = some b → 0 < b →
      info.sharesOutstanding = some s → 0 < s →
      info.currentPrice = some p → p ≠ 0 →
      t < w → 0 ≤ w →
      dcf_tab info t w = DcfOutcome.metric
        ((b + b * (1 + t) / (w - t)) / (1 + w)^5 / s)
        (((b + b * (1 + t) / (w - t)) / (1 + w)^5 / s / p - 1) * 100)) ∧
    round2 ((10^11 + 10^11 * (1 + 1/40) / (17/200 - 1/40)) / (1 + 17/200)^5 / (15 * 10^9))
      = 8017/100 := by
  constructor
  · intro info t w b s p hfc hb hs hsp hp hpne htw hw
    exact dcf_tab_eval_metric info t w b s p hfc hb hs hsp.ne' hp hpne
      (sub_ne_zero.mpr htw.ne') (pow_ne_zero 5 (ne_of_gt (by linarith)))
  · have h : ((10:ℚ)^11 + 10^11 * (1 + 1/40) / (17/200 - 1/40)) / (1 + 17/200)^5 / (15 * 10^9)
        = 1600000000000/19956365289 := by norm_num
    rw [h]
    norm_num [round2, rhe]

/-- Witness for claim C1 at the spec worked example with price 100. -/
theorem claim_C1_witness :
    (0:ℚ) < 10^11 ∧ (0:ℚ) < 15 * 10^9 ∧ (100:ℚ) ≠ 0 ∧ (1/40 : ℚ) < 17/200 ∧ (0:ℚ) ≤ 17/200 ∧
    dcf_tab exInfo1 (1/40) (17/200) = DcfOutcome.metric
      ((10^11 + 10^11 * (1 + 1/40) / (17/200 - 1/40)) / (1 + 17/200)^5 / (15 * 10^9))
      (((10^11 + 10^11 * (1 + 1/40) / (17/200 - 1/40)) / (1 + 17/200)^5 / (15 * 10^9) / 100 - 1)
        * 100) :=
  ⟨by norm_num, by norm_num, by norm_num, by norm_num, by norm_num,
    claim_C1.1 exInfo1 (1/40) (17/200) (10^11) (15 * 10^9) 100 rfl (by norm_num) rfl
      (by norm_num) rfl (by norm_num) (by norm_num) (by norm_num)⟩

/-- Counterexample for claim C1 as stated: at the spec worked example the
code's fair value per share is 1600000000000/19956365289, which rounds to
80.17 and is not within a cent of the claimed 80.90. -/
theorem claim_C1_counterexample :
    dcf_tab exInfo1 (1/40) (17/200) =
      DcfOutcome.metric (1600000000000/19956365289) (-395636528900/19956365289) ∧
    round2 (1600000000000/19956365289 : ℚ) = 8017/100 ∧
    ¬ |(1600000000000/19956365289 : ℚ) - 809/10| ≤ 1/100 := by
  refine ⟨?_, ?_, ?_⟩
  · have h := dcf_tab_eval_metric exInfo1 (1/40) (17/200) (10^11) (15 * 10^9) 100
      rfl (by norm_num) rfl (by norm_num) rfl (by norm_num) (by norm_num) (by norm_num)
    rw [h]
    norm_num
  · norm_num [round2, rhe]
  · rw [abs_sub_comm, abs_of_nonneg (by norm_num)]
    norm_num

/-- Claim C2, amended: within the sidebar slider ranges (growth in [0, 0.05],
discount in [0.05, 0.15]) growth can reach the discount rate only by equality,
and when the two rates are equal the DCF tab hits a division by zero (an
unhandled ZeroDivisionError, not a DomainError, which the code does not
define). -/
theorem claim_C2 :
    (∀ t w : ℚ, 0 ≤ t → t ≤ 1/20 → 1/20 ≤ w → w ≤ t → t = w) ∧
    (∀ (info : Info) (t w : ℚ), 0 < (info.freeCashflow).getD 0 → w = t →
      dcf_tab info t w = DcfOutcome.divByZero) := by
  constructor
  · intro t w h1 h2 h3 h4
    linarith
  · intro info t w hfc h
    exact dcf_tab_eval_spread_zero info t w hfc (by rw [h, sub_self])

/-- Witness for claim C2 at growth = discount = 0.05 with positive cash flow. -/
theorem claim_C2_witness :
    ((0:ℚ) ≤ 1/20 ∧ (1/20 : ℚ) ≤ 1/20 ∧ (1/20 : ℚ) = 1/20) ∧
    (0 < (exInfo1.freeCashflow).getD 0 ∧
      dcf_tab exInfo1 (1/20) (1/20) = DcfOutcome.divByZero) :=
  ⟨⟨by norm_num, by norm_num,
      claim_C2.1 (1/20) (1/20) (by norm_num) (by norm_num) (by norm_num) (by norm_num)⟩,
    ⟨by norm_num [exInfo1], claim_C2.2 exInfo1 (1/20) (1/20) (by norm_num [exInfo1]) rfl⟩⟩

/-- Counterexample for claim C2 as stated: at growth 0.09 and discount 0.085
(growth above discount) the code does not fail — it displays a valuation
metric, with a negative fair value per share. -/
theorem claim_C2_counterexample :
    producesNegValuation (dcf_tab exInfo1 (9/100) (17/200)) = true := by
  norm_num [dcf_tab, exInfo1, producesNegValuation]

/-- Claim C4, amended: a non-positive (or absent, defaulting to 0) cash-flow
base yields the data-unavailable warning and no valuation — but via a
warning, not a DomainError, which the code does not define; an absent
sharesOutstanding key defaults to 1, so the code does produce a fair value
per share (equal to the whole intrinsic value) instead of failing; a zero
sharesOutstanding raises ZeroDivisionError. -/
theorem claim_C4 :
    (∀ (info : Info) (t w : ℚ), (info.freeCashflow).getD 0 ≤ 0 →
      dcf_tab info t w = DcfOutcome.warning) ∧
    (∀ (info : Info) (t w b p : ℚ), info.freeCashflow = some b → 0 < b →
      info.sharesOutstanding = none → info.currentPrice = some p → p ≠ 0 →
      t < w → 0 ≤ w →
      dcf_tab info t w = DcfOutcome.metric
        ((b + b * (1 + t) / (w - t)) / (1 + w)^5)
        (((b + b * (1 + t) / (w - t)) / (1 + w)^5 / p - 1) * 100)) ∧
    (∀ (info : Info) (t w b : ℚ), info.freeCashflow = some b → 0 < b →
      info.sharesOutstanding = some 0 → t < w → 0 ≤ w →
      dcf_tab info t w = DcfOutcome.divByZero) := by
  refine ⟨fun info t w h => dcf_tab_eval_warning info t w h, ?_, ?_⟩
  · intro info t w b p hfc hb hs hp hpne htw hw
    exact dcf_tab_eval_no_shares info t w b p hfc hb hs hp hpne
      (sub_ne_zero.mpr htw.ne') (pow_ne_zero 5 (ne_of_gt (by linarith)))
  · intro info t w b hfc hb hs htw hw
    exact dcf_tab_eval_zero_shares info t w b hfc hb hs
      (sub_ne_zero.mpr htw.ne') (pow_ne_zero 5 (ne_of_gt (by linarith)))

/-- Witness for claim C4: absent cash flow warns; absent shares produce a
fair value; zero shares divide by zero. -/
theorem claim_C4_witness :
    dcf_tab exInfoNone (1/50) (2/25) = DcfOutcome.warning ∧
    dcf_tab exInfo4 (1/50) (2/25) = DcfOutcome.metric
      ((10^11 + 10^11 * (1 + 1/50) / (2/25 - 1/50)) / (1 + 2/25)^5)
      (((10^11 + 10^11 * (1 + 1/50) / (2/25 - 1/50)) / (1 + 2/25)^5 / 50 - 1) * 100) ∧
    dcf_tab exInfo4z (1/50) (2/25) = DcfOutcome.divByZero :=
  ⟨claim_C4.1 exInfoNone (1/50) (2/25) (by norm_num [exInfoNone]),
   claim_C4.2.1 exInfo4 (1/50) (2/25) (10^11) 50 rfl (by norm_num) rfl rfl
     (by norm_num) (by norm_num) (by norm_num),
   claim_C4.2.2 exInfo4z (1/50) (2/25) (10^11) rfl (by norm_num) rfl
     (by norm_num) (by norm_num)⟩

/-- Counterexample for claim C4 as stated: with sharesOutstanding absent and
a positive cash-flow base the DCF tab does not fail — it displays a fair
value per share (computed against the default of 1 share). -/
theorem claim_C4_counterexample : isMetric (dcf_tab exInfo4 (1/50) (2/25)) = true := by
  norm_num [dcf_tab, exInfo4, isMetric]

/-- Claim C9: a bundle whose info lacks currentPrice (so the price defaults
to 0) with a positive freeCashflow drives the upside computation into a
division by zero, so the DCF branch is not total over fetchable bundles. -/
theorem claim_C9 : dcf_tab exInfo9 (1/50) (2/25) = DcfOutcome.divByZero := by
  norm_num [dcf_tab, exInfo9]

/-- Claim C3, amended: compute_ratios produces a single snapshot dict, not a
per-period ratio set; when a denominator (here ebitda, as read with default 0)
is zero or absent, that ratio alone is marked "N/A" inline and the other
ratios are still computed and returned, and nothing raises; there is no
per-period Net Margin entry at all. -/
theorem claim_C3 : ∀ (info : Info) (stmts : Statements),
    (info.ebitda).getD 0 = 0 →
    ratioLookup (compute_ratios info stmts) "Valuation" "EV/EBITDA" = some RVal.na ∧
    (get_val stmts.balance "Stockholders Equity" ≠ 0 →
      ratioLookup (compute_ratios info stmts) "Profitability" "ROE (%)" =
        some (RVal.num (round2 ((info.netIncomeToCommon).getD 0 /
          get_val stmts.balance "Stockholders Equity" * 100)))) := by
  intro info stmts he
  refine ⟨?_, fun heq => ?_⟩
  · simp [ratioLookup, compute_ratios, List.lookup, he]
  · simp [ratioLookup, compute_ratios, List.lookup, heq]

/-- Witness for claim C3: ebitda absent, equity present and nonzero. -/
theorem claim_C3_witness :
    (exInfoNone.ebitda).getD 0 = 0 ∧
    get_val exStmts10.balance "Stockholders Equity" ≠ 0 ∧
    ratioLookup (compute_ratios exInfoNone exStmts10) "Valuation" "EV/EBITDA" = some RVal.na ∧
    ratioLookup (compute_ratios exInfoNone exStmts10) "Profitability" "ROE (%)" =
      some (RVal.num (round2 ((exInfoNone.netIncomeToCommon).getD 0 /
        get_val exStmts10.balance "Stockholders Equity" * 100))) := by
  have heq : get_val exStmts10.balance "Stockholders Equity" ≠ 0 := by
    norm_num [get_val, exStmts10, List.lookup]
  have h := claim_C3 exInfoNone exStmts10 (by norm_num [exInfoNone])
  exact ⟨by norm_num [exInfoNone], heq, h.1, h.2 heq⟩

/-- Counterexample for claim C3 as stated: on a fully populated bundle the
ratio output is the fixed nine-name snapshot — it carries no per-period
entries and no Net Margin ratio at all, so no year-keyed Net Margin entry
can be present or absent. -/
theorem claim_C3_counterexample :
    allRatioNames (compute_ratios exInfo3 exStmts1) =
      ["P/E", "Forward P/E", "EV/EBITDA", "P/S", "ROE (%)", "ROA (%)",
       "Profit Margin", "Current Ratio", "Debt/Equity"] ∧
    ¬ "Net Margin" ∈ allRatioNames (compute_ratios exInfo3 exStmts1) :=
  ⟨rfl, by decide⟩

/-- Claim C5, amended: with the inputs present and nonzero denominators,
compute_ratios yields EV/EBITDA = round2(enterprise_value / ebitda),
ROE = round2(net_income / equity * 100) and
ROA = round2(net_income / assets * 100); the percentage ratios multiply by
100 and round to 2 decimals, EV/EBITDA rounds without the factor 100; but
no Net Margin (net_income / revenue) and no Asset Turnover
(revenue / total_assets) ratios are computed — the displayed Profit Margin
is read directly from the provider's profitMargins field. -/
theorem claim_C5 : ∀ (info : Info) (stmts : Statements),
    (info.ebitda).getD 0 ≠ 0 →
    get_val stmts.balance "Stockholders Equity" ≠ 0 →
    get_val stmts.balance "Total Assets" ≠ 0 →
    ratioLookup (compute_ratios info stmts) "Valuation" "EV/EBITDA" =
      some (RVal.num (round2 ((info.enterpriseValue).getD 0 / (info.ebitda).getD 0))) ∧
    ratioLookup (compute_ratios info stmts) "Profitability" "ROE (%)" =
      some (RVal.num (round2 ((info.netIncomeToCommon).getD 0 /
        get_val stmts.balance "Stockholders Equity" * 100))) ∧
    ratioLookup (compute_ratios info stmts) "Profitability" "ROA (%)" =
      some (RVal.num (round2 ((info.netIncomeToCommon).getD 0 /
        get_val stmts.balance "Total Assets" * 100))) := by
  intro info stmts h1 h2 h3
  refine ⟨?_, ?_, ?_⟩ <;> simp [ratioLookup, compute_ratios, List.lookup, h1, h2, h3]

/-- Witness for claim C5 on a populated bundle: EV/EBITDA 5, ROE 25, ROA 12.5. -/
theorem claim_C5_witness :
    (exInfo3.ebitda).getD 0 ≠ 0 ∧
    get_val exStmts1.balance "Stockholders Equity" ≠ 0 ∧
    get_val exStmts1.balance "Total Assets" ≠ 0 ∧
    ratioLookup (compute_ratios exInfo3 exStmts1) "Valuation" "EV/EBITDA" =
      some (RVal.num 5) ∧
    ratioLookup (compute_ratios exInfo3 exStmts1) "Profitability" "ROE (%)" =
      some (RVal.num 25) ∧
    ratioLookup (compute_ratios exInfo3 exStmts1) "Profitability" "ROA (%)" =
      some (RVal.num (25/2)) := by
  have h1 : (exInfo3.ebitda).getD 0 ≠ 0 := by norm_num [exInfo3]
  have h2 : get_val exStmts1.balance "Stockholders Equity" ≠ 0 := by
    norm_num [get_val, exStmts1, List.lookup]
  have h3 : get_val exStmts1.balance "Total Assets" ≠ 0 := by
    simp [get_val, exStmts1, List.lookup_cons]
  have h := claim_C5 exInfo3 exStmts1 h1 h2 h3
  refine ⟨h1, h2, h3, h.1.trans ?_, h.2.1.trans ?_, h.2.2.trans ?_⟩
  · have e : (exInfo3.enterpriseValue).getD 0 / (exInfo3.ebitda).getD 0 = 5 := by
      norm_num [exInfo3]
    rw [e, round2_eq_low 5 500 (by norm_num) (by norm_num)]
    norm_num
  · have e : (exInfo3.netIncomeToCommon).getD 0 /
        get_val exStmts1.balance "Stockholders Equity" * 100 = 25 := by
      norm_num [exInfo3, get_val, exStmts1, List.lookup]
    rw [e, round2_eq_low 25 2500 (by norm_num) (by norm_num)]
    norm_num
  · have e0 : get_val exStmts1.balance "Total Assets" = 4 * 10^9 := by
      simp [get_val, exStmts1, List.lookup_cons]
    have e : (exInfo3.netIncomeToCommon).getD 0 /
        get_val exStmts1.balance "Total Assets" * 100 = 25/2 := by
      rw [e0]
      norm_num [exInfo3]
    rw [e, round2_eq_low (25/2) 1250 (by norm_num) (by norm_num)]
    norm_num

/-- Counterexample for claim C5 as stated: the ratio output contains neither
an Asset Turnover nor a Net Margin entry on a fully populated bundle. -/
theorem claim_C5_counterexample :
    ¬ "Asset Turnover" ∈ allRatioNames (compute_ratios exInfo3 exStmts1) ∧
    ¬ "Net Margin" ∈ allRatioNames (compute_ratios exInfo3 exStmts1) :=
  ⟨by decide, by decide⟩

/-- Claim C10: when netIncomeToCommon is absent, compute_ratios substitutes 0,
so ROE and ROA are the number 0 whenever equity and assets are nonzero, and
the whole ratio output is identical to that of a bundle whose net income is
truly 0 — absence is indistinguishable from zero. -/
theorem claim_C10 : ∀ (info : Info) (stmts : Statements),
    info.netIncomeToCommon = none →
    (get_val stmts.balance "Stockholders Equity" ≠ 0 →
      ratioLookup (compute_ratios info stmts) "Profitability" "ROE (%)" =
        some (RVal.num 0)) ∧
    (get_val stmts.balance "Total Assets" ≠ 0 →
      ratioLookup (compute_ratios info stmts) "Profitability" "ROA (%)" =
        some (RVal.num 0)) ∧
    compute_ratios info stmts =
      compute_ratios { info with netIncomeToCommon := some 0 } stmts := by
  intro info stmts hni
  have hz : round2 0 = 0 := by norm_num [round2, rhe]
  refine ⟨fun he => ?_, fun ha => ?_, ?_⟩
  · simp [ratioLookup, compute_ratios, List.lookup, hni, he, hz]
  · simp [ratioLookup, compute_ratios, List.lookup, hni, ha, hz]
  · simp [compute_ratios, hni]

/-- Witness for claim C10: all info keys absent, equity 2 and assets 4. -/
theorem claim_C10_witness :
    exInfoNone.netIncomeToCommon = none ∧
    get_val exStmts10.balance "Stockholders Equity" ≠ 0 ∧
    get_val exStmts10.balance "Total Assets" ≠ 0 ∧
    ratioLookup (compute_ratios exInfoNone exStmts10) "Profitability" "ROE (%)" =
      some (RVal.num 0) ∧
    ratioLookup (compute_ratios exInfoNone exStmts10) "Profitability" "ROA (%)" =
      some (RVal.num 0) ∧
    compute_ratios exInfoNone exStmts10 =
      compute_ratios { exInfoNone with netIncomeToCommon := some 0 } exStmts10 := by
  have he : get_val exStmts10.balance "Stockholders Equity" ≠ 0 := by
    norm_num [get_val, exStmts10, List.lookup]
  have ha : get_val exStmts10.balance "Total Assets" ≠ 0 := by
    simp [get_val, exStmts10, List.lookup_cons]
  have h := claim_C10 exInfoNone exStmts10 rfl
  exact ⟨rfl, he, ha, h.1 he, h.2.1 ha, h.2.2⟩

/-- Claim C6, amended: a hit serves the stored return value without running
the body; on a miss the body runs once and its return value is stored
whatever it is — in particular a failed load returns None (the failure
reason is only shown in the UI, not attached to the outcome) and that None
IS stored in the cache, so subsequent calls within TTL serve the cached
failure without reloading. -/
theorem claim_C6 :
    (∀ (c : CacheState) (key : String) (v : Option Bundle) (load : LoadResult),
      c.entries.lookup key = some v → cached_fetch c key load = (v, false, c)) ∧
    (∀ (c : CacheState) (key msg : String),
      c.entries.lookup key = none →
      (cached_fetch c key (LoadResult.failure msg)).1 = none ∧
      ((cached_fetch c key (LoadResult.failure msg)).2.2).entries.lookup key = some none ∧
      ∀ load2 : LoadResult,
        (cached_fetch ((cached_fetch c key (LoadResult.failure msg)).2.2) key load2).2.1
          = false) := by
  constructor
  · intro c key v load h
    simp [cached_fetch, h]
  · intro c key msg h
    refine ⟨by simp [cached_fetch, h, fetch_body], ?_, ?_⟩
    · simp [cached_fetch, h, fetch_body, List.lookup]
    · intro load2
      simp [cached_fetch, h, fetch_body, List.lookup]

/-- Witness for claim C6: a hit on a stored bundle, and a miss with a failing
load that stores None. -/
theorem claim_C6_witness :
    hitCache.entries.lookup "AAPL" = some (some fullBundle) ∧
    cached_fetch hitCache "AAPL" (LoadResult.failure "timeout") =
      (some fullBundle, false, hitCache) ∧
    (⟨[]⟩ : CacheState).entries.lookup "MSFT" = none ∧
    (cached_fetch ⟨[]⟩ "MSFT" (LoadResult.failure "timeout")).1 = none ∧
    ((cached_fetch ⟨[]⟩ "MSFT" (LoadResult.failure "timeout")).2.2).entries.lookup "MSFT"
      = some none := by
  have h1 : hitCache.entries.lookup "AAPL" = some (some fullBundle) := rfl
  have h2 : (⟨[]⟩ : CacheState).entries.lookup "MSFT" = none := rfl
  have ha := claim_C6.1 hitCache "AAPL" (some fullBundle) (LoadResult.failure "timeout") h1
  have hb := claim_C6.2 ⟨[]⟩ "MSFT" "timeout" h2
  exact ⟨h1, ha, h2, hb.1, hb.2.1⟩

/-- Counterexample for claim C6 as stated: a failed load returns None with
the reason discarded (indistinguishable from the empty-history outcome), the
None result IS stored in the cache, and a later call within TTL — even one
whose upstream would now succeed — serves the cached None without running
the loader. -/
theorem claim_C6_counterexample :
    fetch_body (LoadResult.failure "upstream 500") = none ∧
    fetch_body (LoadResult.failure "upstream 500") =
      fetch_body (LoadResult.success emptyHistBundle) ∧
    (cached_fetch ⟨[]⟩ "AAPL" (LoadResult.failure "upstream 500")).1 = none ∧
    (cached_fetch ⟨[]⟩ "AAPL" (LoadResult.failure "upstream 500")).2.2.entries.lookup "AAPL"
      = some none ∧
    (cached_fetch (cached_fetch ⟨[]⟩ "AAPL" (LoadResult.failure "upstream 500")).2.2 "AAPL"
      (LoadResult.success fullBundle)).1 = none ∧
    (cached_fetch (cached_fetch ⟨[]⟩ "AAPL" (LoadResult.failure "upstream 500")).2.2 "AAPL"
      (LoadResult.success fullBundle)).2.1 = false :=
  ⟨rfl, rfl, rfl, rfl, rfl, rfl⟩

/-- Claim C7 (spec-modelled, the repository has no FactNormalizer): the scale
unit is selected from the maximum absolute value over the series — Billions
when at least 1e9, Millions when at least 1e6, else Units — and every point
is divided by the unit's divisor and rounded to 2 decimals, uniformly. -/
theorem claim_C7 (xs : List ℚ) :
    ((10:ℚ)^9 ≤ maxAbs xs → (scaleSeries xs).1 = ScaleUnit.billions ∧
      (scaleSeries xs).2 = xs.map (fun v => round2 (v / 10^9))) ∧
    (maxAbs xs < 10^9 → (10:ℚ)^6 ≤ maxAbs xs → (scaleSeries xs).1 = ScaleUnit.millions ∧
      (scaleSeries xs).2 = xs.map (fun v => round2 (v / 10^6))) ∧
    (maxAbs xs < 10^6 → (scaleSeries xs).1 = ScaleUnit.units ∧
      (scaleSeries xs).2 = xs.map (fun v => round2 (v / 1))) := by
  refine ⟨fun h => ⟨?_, ?_⟩, fun h h6 => ⟨?_, ?_⟩, fun h => ⟨?_, ?_⟩⟩
  · simp only [scaleSeries, selectUnit, if_pos h]
  · simp only [scaleSeries, selectUnit, if_pos h]
    rfl
  · simp only [scaleSeries, selectUnit, if_neg (not_le.mpr h), if_pos h6]
  · simp only [scaleSeries, selectUnit, if_neg (not_le.mpr h), if_pos h6]
    rfl
  · have h9 : ¬ (10:ℚ)^9 ≤ maxAbs xs := not_le.mpr (lt_of_lt_of_le h (by norm_num))
    simp only [scaleSeries, selectUnit, if_neg h9, if_neg (not_le.mpr h)]
  · have h9 : ¬ (10:ℚ)^9 ≤ maxAbs xs := not_le.mpr (lt_of_lt_of_le h (by norm_num))
    simp only [scaleSeries, selectUnit, if_neg h9, if_neg (not_le.mpr h)]
    rfl

/-- Witness for claim C7: a series capped at 2.5e9 scales to Billions with
point value 2.5, and one capped at 4.2e6 scales to Millions with 4.2. -/
theorem claim_C7_witness :
    (10:ℚ)^9 ≤ maxAbs [25 * 10^8, -(10^8)] ∧
    (scaleSeries [25 * 10^8, -(10^8)]).1 = ScaleUnit.billions ∧
    (scaleSeries [25 * 10^8, -(10^8)]).2 = [5/2, -(1/10)] ∧
    maxAbs [42 * 10^5] < 10^9 ∧ (10:ℚ)^6 ≤ maxAbs [42 * 10^5] ∧
    (scaleSeries [42 * 10^5]).1 = ScaleUnit.millions ∧
    (scaleSeries [42 * 10^5]).2 = [21/5] := by
  have hm1 : maxAbs [25 * 10^8, -(10^8)] = 25 * 10^8 := by
    norm_num [maxAbs]
  have hm2 : maxAbs [42 * 10^5] = 42 * 10^5 := by
    norm_num [maxAbs]
  have h1 := (claim_C7 [25 * 10^8, -(10^8)]).1 (by rw [hm1]; norm_num)
  have h2 := (claim_C7 [42 * 10^5]).2.1 (by rw [hm2]; norm_num) (by rw [hm2]; norm_num)
  refine ⟨by rw [hm1]; norm_num, h1.1, h1.2.trans ?_, by rw [hm2]; norm_num,
    by rw [hm2]; norm_num, h2.1, h2.2.trans ?_⟩
  · have e1 : (25 * 10^8 : ℚ) / 10^9 = 5/2 := by norm_num
    have e2 : (-(10^8) : ℚ) / 10^9 = -(1/10) := by norm_num
    simp only [List.map_cons, List.map_nil, e1, e2]
    rw [round2_eq_low (5/2) 250 (by norm_num) (by norm_num),
      round2_eq_low (-(1/10)) (-10) (by norm_num) (by norm_num)]
    norm_num
  · have e1 : (42 * 10^5 : ℚ) / 10^6 = 21/5 := by norm_num
    simp only [List.map_cons, List.map_nil, e1]
    rw [round2_eq_low (21/5) 420 (by norm_num) (by norm_num)]
    norm_num

end FinanceTerminal
